import Mathlib

/-!
Shallow embedding of `src/app.py` (Slack dynamic MCP server): the token
service client `get_token_from_service`, the credential resolver
`get_slack_client_from_context`, and the operation handlers needed by the
claims (`slack_send_message`, `slack_list_users`, `slack_create_channel`,
`slack_search_messages`).

External behaviour (HTTP responses of the token service, the interactive
terminal read, the Slack platform responses, and the two environment
variables read at start-up) is passed in explicitly as oracle values, so
every Python control path becomes a pure, executable Lean function.
Python exceptions are modelled with `Except`; a raised error that escapes
a function is an `.error` value.
-/

namespace SlackMCP

/-- JSON-like values, the shape of token-service response bodies and of
Slack SDK responses as the Python code consumes them (dicts, lists,
strings, numbers, booleans, null). -/
inductive JValue where
  | obj (fields : List (String × JValue))
  | arr (elems : List JValue)
  | str (s : String)
  | num (n : Int)
  | bool (b : Bool)
  | null

/-- Python exception kinds relevant to the embedded code.  `valueError`
models the `ValueError` raised by `get_token_from_service` (the spec's
`ServiceError`) and by credential exhaustion; the others model built-in
exceptions raised by attribute/key access on the wrong shape of data. -/
inductive PyError where
  | valueError
  | keyError
  | typeError
  | attributeError
  | eofError

/-- Outcome of the one `httpx.get` call: transport failure, timeout, or a
response with a status code and a parsed JSON body (`none` = body that
`response.json()` fails to parse). -/
inductive HttpOutcome where
  | networkError
  | timeout
  | response (status : Nat) (body : Option JValue)

/-- First-match association-list lookup, the model of Python dict key
lookup (dict keys are unique, so first-match agrees with dict semantics). -/
def lookupField : List (String × JValue) → String → Option JValue
  | [], _ => none
  | (k, v) :: rest, key => if k = key then some v else lookupField rest key

/-- Models Python `d.get(key)` (no default): `none` when the key is absent;
raises `AttributeError` when the receiver is not a dict. -/
def jGet : JValue → String → Except PyError (Option JValue)
  | .obj fs, k => .ok (lookupField fs k)
  | _, _ => .error .attributeError

/-- Models Python `d.get(key, default)`; raises `AttributeError` when the
receiver is not a dict. -/
def jGetD (v : JValue) (k : String) (d : JValue) : Except PyError JValue :=
  match v with
  | .obj fs => .ok ((lookupField fs k).getD d)
  | _ => .error .attributeError

/-- Models Python `d[key]` subscription: `KeyError` when the key is absent,
`TypeError` when the receiver is not a dict. -/
def jIndex : JValue → String → Except PyError JValue
  | .obj fs, k =>
    match lookupField fs k with
    | some v => .ok v
    | none => .error .keyError
  | _, _ => .error .typeError

/-- Python truthiness of a JSON value. -/
def truthy : JValue → Bool
  | .obj fs => !fs.isEmpty
  | .arr xs => !xs.isEmpty
  | .str s => !(s == "")
  | .num n => !(n == 0)
  | .bool b => b
  | .null => false

/-- Character-list test that the first list is an initial segment of the
second. -/
def listPrefixAux : List Char → List Char → Bool
  | [], _ => true
  | _ :: _, [] => false
  | a :: as, b :: bs => a == b && listPrefixAux as bs

/-- Character-list test that `n` occurs contiguously inside the second
list. -/
def strContainsAux (n : List Char) : List Char → Bool
  | [] => n.isEmpty
  | c :: t => listPrefixAux n (c :: t) || strContainsAux n t

/-- Models Python `needle in hay` on strings (substring containment). -/
def strContains (hay needle : String) : Bool :=
  strContainsAux needle.data hay.data

/-- Models Python `s.startswith(pre)`. -/
def pyStartswith (s pre : String) : Bool :=
  listPrefixAux pre.data s.data

/-- Models Python `s.lower()` (character-wise lowering; agrees with Python
on the ASCII tokens this code handles). -/
def pyLower (s : String) : String :=
  ⟨s.data.map Char.toLower⟩

/-- Whitespace recognised by the model of Python `str.strip()`. -/
def isSpaceChar (c : Char) : Bool :=
  c == ' ' || c == '\t' || c == '\n' || c == '\r'

/-- Models Python `s.strip()`. -/
def pyStrip (s : String) : String :=
  ⟨((s.data.dropWhile isSpaceChar).reverse.dropWhile isSpaceChar).reverse⟩

/-- The process environment and external-world oracles the resolver reads:
the token-service HTTP behaviour as a function of the `user_id` query
parameter, the behaviour of the interactive `input()` read, and the two
fallback environment variables loaded at start-up (`none` = unset). -/
structure Env where
  svc : String → HttpOutcome
  manual : Except PyError String
  SLACK_BOT_TOKEN : Option String
  SLACK_USER_TOKEN : Option String

/-- The request context: `request_context` is `some headers` when the
attribute exists and is truthy, carrying the headers mapping that
`ctx.request_context.get("headers", ...)` yields (empty when absent). -/
structure Context where
  request_context : Option (List (String × String))

/-- Result of `get_slack_client_from_context`: either a `WebClient` built
from the resolved token (`client`), or a raised `ValueError` carrying the
remediation message (`credentialError`). -/
inductive ResolveResult where
  | client (token : String)
  | credentialError (msg : String)

/-- Embeds `get_token_from_service` (src/app.py lines 21-41): any
transport error, timeout, non-2xx status (httpx `raise_for_status`) or
unparseable body is re-raised as a `ValueError`; a non-empty JSON list
yields its first element, anything else (a dict, an empty list, any other
shape) is returned as-is. -/
def get_token_from_service (outcome : HttpOutcome) : Except PyError JValue :=
  match outcome with
  | .networkError => .error .valueError
  | .timeout => .error .valueError
  | .response status body =>
    if 200 ≤ status ∧ status ≤ 299 then
      match body with
      | none => .error .valueError
      | some data =>
        match data with
        | .arr (x :: _) => .ok x
        | _ => .ok data
    else .error .valueError

/-- Embeds lines 50-56: `token = token_data.get("access_token")` followed
by `if token and token.startswith("xoxp-")`.  Returns `some token` when
the branch is taken, `none` when resolution falls through, and an error
when the Python expression itself raises (non-dict record, or a truthy
non-string token that has no `startswith`). -/
def checkUserToken (token_data : JValue) : Except PyError (Option String) :=
  match jGet token_data "access_token" with
  | .error e => .error e
  | .ok none => .ok none
  | .ok (some v) =>
    if truthy v then
      match v with
      | .str s => .ok (if pyStartswith s "xoxp-" then some s else none)
      | _ => .error .attributeError
    else .ok none

/-- One service fetch-and-validate round for a given `user_id`: the body
of the outer `try` on lines 48-56 (and again lines 68-73 for the manual
retry). -/
def fetchCheck (env : Env) (uid : String) : Except PyError (Option String) :=
  match get_token_from_service (env.svc uid) with
  | .error e => .error e
  | .ok td => checkUserToken td

/-- Embeds the `except` block of lines 58-81: prompt the terminal for a
replacement user id, strip it, and if non-empty retry the service fetch;
every failure inside this block is caught and yields fall-through. -/
def manualStage (env : Env) : Option String :=
  match env.manual with
  | .error _ => none
  | .ok s =>
    let m := pyStrip s
    if m = "" then none
    else
      match fetchCheck env m with
      | .ok (some t) => some t
      | .ok none => none
      | .error _ => none

/-- Priority 1 of the resolver (lines 46-81): attempted only when
`not use_bot and user_id` is truthy; a successful validated fetch returns
its token, a falsy/invalid token falls through, and a raised error enters
the manual-prompt recovery path. -/
def phase1 (env : Env) (use_bot : Bool) (user_id : Option String) : Option String :=
  if use_bot then none
  else
    match user_id with
    | none => none
    | some uid =>
      if uid = "" then none
      else
        match fetchCheck env uid with
        | .ok (some t) => some t
        | .ok none => none
        | .error _ => manualStage env

/-- Exact-key header lookup, the model of `headers.get(name)`. -/
def hget : List (String × String) → String → Option String
  | [], _ => none
  | (k, v) :: rest, key => if k = key then some v else hget rest key

/-- Python `a or b` on two optional strings (`None` and `""` are falsy). -/
def pyOr (a b : Option String) : Option String :=
  match a with
  | some s => if s = "" then b else some s
  | none => b

/-- The lowercase header name tried first for each credential class. -/
def headerNameLower (use_bot : Bool) : String :=
  if use_bot then "x-slack-bot-token" else "x-slack-user-token"

/-- The capitalized header name tried second for each credential class. -/
def headerNameCaps (use_bot : Bool) : String :=
  if use_bot then "X-Slack-Bot-Token" else "X-Slack-User-Token"

/-- Priority 2 of the resolver (lines 83-94): when the request context is
present and truthy, read the class-specific header under its two
capitalization variants and use it when truthy. -/
def headerStage (ctx : Context) (use_bot : Bool) : Option String :=
  match ctx.request_context with
  | none => none
  | some hs =>
    match pyOr (hget hs (headerNameLower use_bot)) (hget hs (headerNameCaps use_bot)) with
    | some t => if t = "" then none else some t
    | none => none

/-- Python truthiness of an optional environment string. -/
def optTruthy : Option String → Bool
  | some s => !(s == "")
  | none => false

/-- The exhaustion message raised for BOT-class resolution (lines 101-106). -/
def botErrMsg : String :=
  "❌ Slack Bot Token not provided. Options:\n1) Set SLACK_BOT_TOKEN in .env file\n2) Provide X-Slack-Bot-Token header\n3) Pass user_id with bot token in Supabase"

/-- The exhaustion message raised for USER-class resolution (lines 111-117). -/
def userErrMsg : String :=
  "❌ Slack User Token not provided. Options:\n1) Provide user_id parameter (recommended)\n2) Send X-Slack-User-Token header\n3) Set SLACK_USER_TOKEN in .env file\n\n💡 Tip: Pass user_id=\x27your-supabase-user-id\x27 to fetch token automatically"

/-- The exhaustion message for a given credential class. -/
def exhaustMsg (use_bot : Bool) : String :=
  if use_bot then botErrMsg else userErrMsg

/-- The environment-variable remediation name for a given class. -/
def envVarName (use_bot : Bool) : String :=
  if use_bot then "SLACK_BOT_TOKEN" else "SLACK_USER_TOKEN"

/-- Priority 3 of the resolver (lines 96-117): the class-specific
environment fallback, else the raised `ValueError` with the remediation
message. -/
def envStage (env : Env) (use_bot : Bool) : ResolveResult :=
  if use_bot then
    if optTruthy env.SLACK_BOT_TOKEN then .client (env.SLACK_BOT_TOKEN.getD "")
    else .credentialError botErrMsg
  else
    if optTruthy env.SLACK_USER_TOKEN then .client (env.SLACK_USER_TOKEN.getD "")
    else .credentialError userErrMsg

/-- Priorities 2 and 3 chained: what the resolver does once the service
phase has fallen through. -/
def headerEnvStage (env : Env) (ctx : Context) (use_bot : Bool) : ResolveResult :=
  match headerStage ctx use_bot with
  | some t => .client t
  | none => envStage env use_bot

/-- Embeds `get_slack_client_from_context` (lines 43-117) end to end. -/
def get_slack_client_from_context (env : Env) (ctx : Context) (use_bot : Bool)
    (user_id : Option String) : ResolveResult :=
  match phase1 env use_bot user_id with
  | some t => .client t
  | none => headerEnvStage env ctx use_bot

/-- Outcome of one Slack SDK call: a `SlackApiError` carrying its
stringified description, or a success response body. -/
inductive SlackOutcome where
  | apiError (msg : String)
  | success (resp : JValue)

/-- What a handler invocation produces: a returned envelope dict, a
`ValueError` raised by the credential phase and propagating out, or any
other exception escaping the handler uncaught. -/
inductive HandlerResult where
  | envelope (v : JValue)
  | raisedCredential (msg : String)
  | uncaught (e : PyError)

/-- The failure branch of the Result Envelope. -/
def mkFail (e : String) : JValue :=
  .obj [("ok", .bool false), ("error", .str e)]

/-- True exactly when a handler outcome is one of the two documented
outcomes: a returned envelope or a raised credential-phase error. -/
def isStructuredOutcome : HandlerResult → Bool
  | .envelope _ => true
  | .raisedCredential _ => true
  | .uncaught _ => false

/-- Embeds `slack_send_message` (lines 121-128).  The platform call
outcome is the oracle `platform`; only `SlackApiError` is caught, and the
success branch subscripts `response["ts"]`. -/
def slack_send_message (env : Env) (ctx : Context) (channel_id text : String)
    (user_id : Option String) (platform : SlackOutcome) : HandlerResult :=
  match get_slack_client_from_context env ctx true user_id with
  | .credentialError m => .raisedCredential m
  | .client _ =>
    match platform with
    | .apiError e => .envelope (mkFail e)
    | .success resp =>
      match jIndex resp "ts" with
      | .ok ts => .envelope (.obj [("ok", .bool true), ("message_ts", ts)])
      | .error e => .uncaught e

/-- The per-member projection of `slack_list_users` (lines 160-166):
subscripts `u["id"]` and `u["real_name"]`, then
`u.get("profile", ...).get("email", "")`. -/
def projectUser (u : JValue) : Except PyError JValue := do
  let uid ← jIndex u "id"
  let nm ← jIndex u "real_name"
  let prof ← jGetD u "profile" (.obj [])
  let email ← jGetD prof "email" (.str "")
  pure (.obj [("id", uid), ("name", nm), ("email", email)])

/-- The list comprehension over `response["members"]`, raising at the
first malformed member. -/
def projectUsers : List JValue → Except PyError (List JValue)
  | [] => .ok []
  | u :: us => do
    let p ← projectUser u
    let rest ← projectUsers us
    pure (p :: rest)

/-- Embeds `slack_list_users` (lines 155-170). -/
def slack_list_users (env : Env) (ctx : Context) (user_id : Option String)
    (platform : SlackOutcome) : HandlerResult :=
  match get_slack_client_from_context env ctx true user_id with
  | .credentialError m => .raisedCredential m
  | .client _ =>
    match platform with
    | .apiError e => .envelope (mkFail e)
    | .success resp =>
      match (do
        let members ← jIndex resp "members"
        match members with
        | .arr us => projectUsers us
        | _ => .error .typeError) with
      | .ok users => .envelope (.obj [("ok", .bool true), ("users", .arr users)])
      | .error e => .uncaught e

/-- One observable platform mutation performed by `slack_create_channel`,
with whether the platform reported it successful. -/
inductive Effect where
  | create (name : String) (is_private : Bool) (ok : Bool)
  | invite (channel : JValue) (user : String) (ok : Bool)

/-- Embeds `slack_create_channel` (lines 212-236): create the channel,
build the success envelope, then — only when `invite_user_id` is truthy —
invite that user inside the same `try`, so an invite `SlackApiError`
replaces the already-built success envelope with the failure envelope.
The first component records the platform calls actually performed. -/
def slack_create_channel (env : Env) (ctx : Context) (name : String)
    (is_private : Bool) (invite_user_id : Option String)
    (user_id : Option String) (createOut inviteOut : SlackOutcome) :
    List Effect × HandlerResult :=
  match get_slack_client_from_context env ctx true user_id with
  | .credentialError m => ([], .raisedCredential m)
  | .client _ =>
    match createOut with
    | .apiError e => ([.create name is_private false], .envelope (mkFail e))
    | .success resp =>
      match (do
        let channel ← jIndex resp "channel"
        let cid ← jIndex channel "id"
        let cname ← jIndex channel "name"
        let cpriv ← jGetD channel "is_private" (.bool false)
        let ccreated ← jGetD channel "created" (.num 0)
        pure (cid,
          JValue.obj [("ok", .bool true),
            ("channel", .obj [("id", cid), ("name", cname),
              ("is_private", cpriv), ("created", ccreated)])])) with
      | .error e => ([.create name is_private true], .uncaught e)
      | .ok (cid, result) =>
        match invite_user_id with
        | some iu =>
          if iu = "" then ([.create name is_private true], .envelope result)
          else
            match inviteOut with
            | .apiError e =>
              ([.create name is_private true, .invite cid iu false],
               .envelope (mkFail e))
            | .success _ =>
              ([.create name is_private true, .invite cid iu true],
               .envelope result)
        | none => ([.create name is_private true], .envelope result)

/-- The per-message test of `slack_search_messages` (line 269):
`keyword.lower() in msg.get("text", "").lower()`, raising when `msg` is
not a dict or its text field is a truthy non-string. -/
def msgMatches (keyword : String) (msg : JValue) : Except PyError Bool := do
  let t ← jGetD msg "text" (.str "")
  match t with
  | .str s => pure (strContains (pyLower s) (pyLower keyword))
  | _ => .error .attributeError

/-- The filtering list comprehension of lines 267-270, raising at the
first malformed message. -/
def filterMessages (keyword : String) : List JValue → Except PyError (List JValue)
  | [] => .ok []
  | m :: ms => do
    let b ← msgMatches keyword m
    let rest ← filterMessages keyword ms
    pure (if b then m :: rest else rest)

/-- Embeds `slack_search_messages` (lines 262-273).  `historyOut` is the
outcome of the `conversations_history` call (already reflecting the
`limit` argument).  Iterating a non-list `history["messages"]` is
modelled as a raised `TypeError`. -/
def slack_search_messages (env : Env) (ctx : Context)
    (channel_id keyword : String) (limit : Nat) (user_id : Option String)
    (historyOut : SlackOutcome) : HandlerResult :=
  match get_slack_client_from_context env ctx false user_id with
  | .credentialError m => .raisedCredential m
  | .client _ =>
    match historyOut with
    | .apiError e => .envelope (mkFail e)
    | .success resp =>
      match (do
        let msgs ← jIndex resp "messages"
        match msgs with
        | .arr l => filterMessages keyword l
        | _ => .error .typeError) with
      | .ok matched => .envelope (.obj [("ok", .bool true), ("matches", .arr matched)])
      | .error e => .uncaught e

/-- The text a well-formed message contributes to the search predicate:
its string text field, absent fields reading as empty. -/
def msgText (m : JValue) : String :=
  match m with
  | .obj fs =>
    match lookupField fs "text" with
    | some (.str s) => s
    | _ => ""
  | _ => ""

/-- The pure search predicate: case-insensitive substring containment of
the keyword in the message text. -/
def msgPred (keyword : String) (m : JValue) : Bool :=
  strContains (pyLower (msgText m)) (pyLower keyword)

/-- A message on which the Python matcher cannot raise: a dict whose text
field, when present, is a string. -/
def wellFormedMsg (m : JValue) : Bool :=
  match m with
  | .obj fs =>
    match lookupField fs "text" with
    | some (.str _) => true
    | some _ => false
    | none => true
  | _ => false

/-- Follows the spec words, not the source (for comparison against the
code): a usable token is present and non-empty; for BOT, prefer the
bot-token field, then the nested raw/authed-user access-token location,
else the generic access-token field; for USER, the generic access-token
field. -/
def spec_usableTokenFor (use_bot : Bool) (record : JValue) : Option String :=
  let fieldStr : JValue → String → Option String := fun v k =>
    match v with
    | .obj fs =>
      match lookupField fs k with
      | some (.str s) => if s = "" then none else some s
      | _ => none
    | _ => none
  if use_bot then
    match fieldStr record "bot_token" with
    | some s => some s
    | none =>
      match
        (match record with
         | .obj fs =>
           match lookupField fs "raw" with
           | some (.obj rfs) =>
             match lookupField rfs "authed_user" with
             | some au => fieldStr au "access_token"
             | none => none
           | _ => none
         | _ => none) with
      | some s => some s
      | none => fieldStr record "access_token"
  else fieldStr record "access_token"

/-- Reads a field of an envelope dict (`none` when absent or not a dict). -/
def fieldOf (v : JValue) (k : String) : Option JValue :=
  match v with
  | .obj fs => lookupField fs k
  | _ => none

/-- A token service that always fails at the transport level. -/
def svcDown : String → HttpOutcome := fun _ => .networkError

/-- A token service that returns a valid user-token record for every id. -/
def svcXoxp : String → HttpOutcome :=
  fun _ => .response 200 (some (.obj [("access_token", .str "xoxp-abc")]))

/-- A token service that returns a record holding a usable bot token. -/
def svcBotRecord : String → HttpOutcome :=
  fun _ => .response 200 (some (.obj [("bot_token", .str "xoxb-abc"),
    ("access_token", .str "xoxb-abc")]))

/-- A token service that returns a record whose generic access token is
non-empty but does not carry the user prefix. -/
def svcNonXoxp : String → HttpOutcome :=
  fun _ => .response 200 (some (.obj [("access_token", .str "xoxu-abc")]))

/-- A token service that fails for the supplied id and succeeds with a
valid user token for the manually entered id. -/
def svcManualOnly : String → HttpOutcome :=
  fun uid =>
    if uid = "u2" then .response 200 (some (.obj [("access_token", .str "xoxp-man")]))
    else .networkError

/-- A context carrying a bot-token header. -/
def ctxBotHeader : Context := ⟨some [("x-slack-bot-token", "xoxb-head")]⟩

/-- A context carrying a user-token header. -/
def ctxUserHeader : Context := ⟨some [("x-slack-user-token", "header-tok")]⟩

/-- A context whose bot-token header value carries the user prefix. -/
def ctxEvilBotHeader : Context := ⟨some [("x-slack-bot-token", "xoxp-evil")]⟩

/-- A context carrying only the capitalized bot header of scenario C. -/
def ctxScenarioC : Context := ⟨some [("X-Slack-Bot-Token", "xoxb-123")]⟩

/-- An environment with no fallback tokens and a dead service. -/
def envPlain : Env := ⟨svcDown, .error .eofError, none, none⟩

/-- An environment whose only token source is the bot fallback variable. -/
def envBotFallback : Env := ⟨svcDown, .error .eofError, some "xoxb-env", none⟩

/-- An environment whose only token source is the user fallback variable. -/
def envUserFallback : Env := ⟨svcDown, .error .eofError, none, some "xoxu-env"⟩

/-- The environment of the manual-retry counterexample: the service fails
for the supplied id, the terminal supplies a replacement id that works. -/
def envManualRetry : Env := ⟨svcManualOnly, .ok "u2", none, some "xoxu-env"⟩

/-- Sample fetched messages: one matching, one without a text field, one
non-matching. -/
def msgsW : List JValue :=
  [ .obj [("text", .str "Hello World"), ("user", .str "u1")],
    .obj [("user", .str "u2")],
    .obj [("text", .str "bye")] ]

end SlackMCP

namespace SlackMCP

theorem pyStartswith_xoxp_ne_empty (t : String)
    (h : pyStartswith t "xoxp-" = true) : t ≠ "" := by
  intro he
  rw [he] at h
  exact absurd h (by decide)

theorem fetchCheck_valid (env : Env) (uid t : String)
    (fs : List (String × JValue))
    (hfetch : get_token_from_service (env.svc uid) = .ok (.obj fs))
    (htok : lookupField fs "access_token" = some (.str t))
    (hpre : pyStartswith t "xoxp-" = true) :
    fetchCheck env uid = .ok (some t) := by
  have ht := pyStartswith_xoxp_ne_empty t hpre
  have hbe : (t == "") = false := beq_eq_false_iff_ne.mpr ht
  simp [fetchCheck, hfetch, checkUserToken, jGet, htok, truthy, hbe, hpre]

theorem resolve_user_xoxp_aux (svc : String → HttpOutcome)
    (manual : Except PyError String) (bt ut : Option String) (ctx : Context)
    (uid t : String) (fs : List (String × JValue))
    (hu : uid ≠ "")
    (hfetch : get_token_from_service (svc uid) = .ok (.obj fs))
    (htok : lookupField fs "access_token" = some (.str t))
    (hpre : pyStartswith t "xoxp-" = true) :
    get_slack_client_from_context ⟨svc, manual, bt, ut⟩ ctx false (some uid)
      = .client t := by
  have h1 : fetchCheck ⟨svc, manual, bt, ut⟩ uid = .ok (some t) :=
    fetchCheck_valid ⟨svc, manual, bt, ut⟩ uid t fs hfetch htok hpre
  have h2 : phase1 ⟨svc, manual, bt, ut⟩ false (some uid) = some t := by
    simp [phase1, hu, h1]
  simp [get_slack_client_from_context, h2]

theorem phase1_bot_none (env : Env) (user_id : Option String) :
    phase1 env true user_id = none := by
  simp [phase1]

theorem headerEnvStage_tokens_only (svc svc2 : String → HttpOutcome)
    (manual manual2 : Except PyError String) (bt ut : Option String)
    (ctx : Context) (use_bot : Bool) :
    headerEnvStage ⟨svc, manual, bt, ut⟩ ctx use_bot
      = headerEnvStage ⟨svc2, manual2, bt, ut⟩ ctx use_bot := by
  cases hh : headerStage ctx use_bot <;> simp [headerEnvStage, hh, envStage]

/-- C3: for a USER-class resolution with an identity supplied, when the
Token Service returns a record whose generic access-token field holds a
token beginning with xoxp-, resolve accepts it immediately and returns
it, without consulting request headers (arbitrary `ctx`) or the local
fallback configuration (arbitrary `bt`, `ut`). -/
theorem resolve_user_accepts_xoxp (svc : String → HttpOutcome)
    (manual : Except PyError String) (bt ut : Option String) (ctx : Context)
    (uid t : String) (fs : List (String × JValue))
    (hu : uid ≠ "")
    (hfetch : get_token_from_service (svc uid) = .ok (.obj fs))
    (htok : lookupField fs "access_token" = some (.str t))
    (hpre : pyStartswith t "xoxp-" = true) :
    get_slack_client_from_context ⟨svc, manual, bt, ut⟩ ctx false (some uid)
      = .client t :=
  resolve_user_xoxp_aux svc manual bt ut ctx uid t fs hu hfetch htok hpre

theorem resolve_user_accepts_xoxp_wit :
    ("u1" : String) ≠ ""
    ∧ get_token_from_service (svcXoxp "u1")
        = .ok (.obj [("access_token", .str "xoxp-abc")])
    ∧ lookupField [("access_token", JValue.str "xoxp-abc")] "access_token"
        = some (.str "xoxp-abc")
    ∧ pyStartswith "xoxp-abc" "xoxp-" = true
    ∧ get_slack_client_from_context
        ⟨svcXoxp, .error .eofError, some "xoxb-env", some "xoxu-env"⟩
        ctxUserHeader false (some "u1") = .client "xoxp-abc" :=
  ⟨by decide, by rfl, by rfl, by decide,
   resolve_user_accepts_xoxp svcXoxp (.error .eofError) (some "xoxb-env")
     (some "xoxu-env") ctxUserHeader "u1" "xoxp-abc"
     [("access_token", JValue.str "xoxp-abc")]
     (by decide) (by rfl) (by rfl) (by decide)⟩

/-- C1 (amended): for USER-class resolution with a truthy identity, if the
service record's generic access-token field holds a string token beginning
with xoxp-, resolve returns exactly that token with no header or fallback
lookup; for BOT-class resolution the Token Service and the terminal are
never consulted at all (the result does not depend on them). -/
theorem resolve_service_first_amended (svc : String → HttpOutcome)
    (manual : Except PyError String) (bt ut : Option String) (ctx : Context)
    (uid t : String) (fs : List (String × JValue))
    (hu : uid ≠ "")
    (hfetch : get_token_from_service (svc uid) = .ok (.obj fs))
    (htok : lookupField fs "access_token" = some (.str t))
    (hpre : pyStartswith t "xoxp-" = true) :
    get_slack_client_from_context ⟨svc, manual, bt, ut⟩ ctx false (some uid)
      = .client t
    ∧ ∀ (svc2 : String → HttpOutcome) (manual2 : Except PyError String)
        (ctx2 : Context) (uid2 : Option String),
        get_slack_client_from_context ⟨svc, manual, bt, ut⟩ ctx2 true uid2
          = get_slack_client_from_context ⟨svc2, manual2, bt, ut⟩ ctx2 true uid2 := by
  constructor
  · exact resolve_user_xoxp_aux svc manual bt ut ctx uid t fs hu hfetch htok hpre
  · intro svc2 manual2 ctx2 uid2
    rw [get_slack_client_from_context, get_slack_client_from_context,
        phase1_bot_none, phase1_bot_none]
    exact headerEnvStage_tokens_only svc svc2 manual manual2 bt ut ctx2 true

theorem resolve_service_first_cex :
    spec_usableTokenFor true
        (.obj [("bot_token", .str "xoxb-abc"), ("access_token", .str "xoxb-abc")])
      = some "xoxb-abc"
    ∧ get_slack_client_from_context ⟨svcBotRecord, .error .eofError, none, none⟩
        ctxBotHeader true (some "u1") = .client "xoxb-head"
    ∧ ("xoxb-head" : String) ≠ "xoxb-abc"
    ∧ spec_usableTokenFor false (.obj [("access_token", .str "xoxu-abc")])
      = some "xoxu-abc"
    ∧ get_slack_client_from_context ⟨svcNonXoxp, .error .eofError, none, none⟩
        ctxUserHeader false (some "u1") = .client "header-tok"
    ∧ ("header-tok" : String) ≠ "xoxu-abc" :=
  ⟨by rfl, by rfl, by decide, by rfl, by rfl, by decide⟩

theorem resolve_service_first_wit :
    ("u1" : String) ≠ ""
    ∧ get_token_from_service (svcXoxp "u1")
        = .ok (.obj [("access_token", .str "xoxp-abc")])
    ∧ lookupField [("access_token", JValue.str "xoxp-abc")] "access_token"
        = some (.str "xoxp-abc")
    ∧ pyStartswith "xoxp-abc" "xoxp-" = true
    ∧ (get_slack_client_from_context
         ⟨svcXoxp, .error .eofError, none, some "xoxu-env"⟩
         ⟨none⟩ false (some "u1") = .client "xoxp-abc"
       ∧ ∀ (svc2 : String → HttpOutcome) (manual2 : Except PyError String)
           (ctx2 : Context) (uid2 : Option String),
           get_slack_client_from_context
             ⟨svcXoxp, .error .eofError, none, some "xoxu-env"⟩ ctx2 true uid2
             = get_slack_client_from_context
                 ⟨svc2, manual2, none, some "xoxu-env"⟩ ctx2 true uid2) :=
  ⟨by decide, by rfl, by rfl, by decide,
   resolve_service_first_amended svcXoxp (.error .eofError) none
     (some "xoxu-env") ⟨none⟩ "u1" "xoxp-abc"
     [("access_token", JValue.str "xoxp-abc")]
     (by decide) (by rfl) (by rfl) (by decide)⟩

/-- C2 (amended): a BOT-class resolution never consults the Token Service
or the terminal at all — it is exactly the header-then-fallback lookup,
for any service behaviour — so no service-record token (xoxp-prefixed or
otherwise) is ever returned for BOT; however, header and local-fallback
values are returned unchanged with no prefix validation, so a BOT-class
resolution can return an xoxp-prefixed token supplied by those sources
(see the counterexample). -/
theorem resolve_bot_ignores_service (svc svc2 : String → HttpOutcome)
    (manual manual2 : Except PyError String) (bt ut : Option String)
    (ctx : Context) (user_id : Option String) :
    get_slack_client_from_context ⟨svc, manual, bt, ut⟩ ctx true user_id
      = headerEnvStage ⟨svc2, manual2, bt, ut⟩ ctx true := by
  rw [get_slack_client_from_context, phase1_bot_none]
  exact headerEnvStage_tokens_only svc svc2 manual manual2 bt ut ctx true

theorem resolve_bot_prefix_cex :
    get_slack_client_from_context envPlain ctxEvilBotHeader true none
      = .client "xoxp-evil"
    ∧ pyStartswith "xoxp-evil" "xoxp-" = true :=
  ⟨by rfl, by decide⟩

/-- C4 (amended): a service-lookup error for the supplied identity is
caught inside the resolver; the resolver then reads a replacement
identity from the terminal and retries the service, and when that manual
path yields no token, resolution continues to the header and
local-fallback sources; a service-lookup error alone never causes resolve
to fail — every USER-class resolution either returns a client or raises
the exhaustion CredentialError. -/
theorem resolve_service_error_nonfatal_amended (svc : String → HttpOutcome)
    (manual : Except PyError String) (bt ut : Option String) (ctx : Context)
    (uid : String) (pe : PyError)
    (hu : uid ≠ "")
    (hsvc : get_token_from_service (svc uid) = .error pe)
    (hman : manualStage ⟨svc, manual, bt, ut⟩ = none) :
    get_slack_client_from_context ⟨svc, manual, bt, ut⟩ ctx false (some uid)
      = headerEnvStage ⟨svc, manual, bt, ut⟩ ctx false
    ∧ ∀ (env2 : Env) (ctx2 : Context) (uid2 : Option String),
        (∃ t2, get_slack_client_from_context env2 ctx2 false uid2 = .client t2)
        ∨ get_slack_client_from_context env2 ctx2 false uid2
            = .credentialError userErrMsg := by
  constructor
  · have h1 : fetchCheck ⟨svc, manual, bt, ut⟩ uid = .error pe := by
      simp [fetchCheck, hsvc]
    have h2 : phase1 ⟨svc, manual, bt, ut⟩ false (some uid) = none := by
      simp [phase1, hu, h1, hman]
    simp [get_slack_client_from_context, h2]
  · intro env2 ctx2 uid2
    rw [get_slack_client_from_context]
    cases hph : phase1 env2 false uid2 with
    | some t => exact Or.inl ⟨t, rfl⟩
    | none =>
      rw [headerEnvStage]
      cases hhd : headerStage ctx2 false with
      | some t => exact Or.inl ⟨t, rfl⟩
      | none =>
        rw [envStage]
        cases hut : optTruthy env2.SLACK_USER_TOKEN
        · exact Or.inr (by simp [hut])
        · exact Or.inl ⟨env2.SLACK_USER_TOKEN.getD "", by simp [hut]⟩

theorem resolve_service_error_manual_cex :
    get_token_from_service (envManualRetry.svc "u1") = .error .valueError
    ∧ get_slack_client_from_context envManualRetry ctxUserHeader false (some "u1")
        = .client "xoxp-man"
    ∧ headerEnvStage envManualRetry ctxUserHeader false = .client "header-tok"
    ∧ ("xoxp-man" : String) ≠ "header-tok" :=
  ⟨by rfl, by rfl, by rfl, by decide⟩

theorem resolve_service_error_nonfatal_wit :
    ("u1" : String) ≠ ""
    ∧ get_token_from_service (svcDown "u1") = .error .valueError
    ∧ manualStage envPlain = none
    ∧ (get_slack_client_from_context envPlain ctxUserHeader false (some "u1")
         = headerEnvStage envPlain ctxUserHeader false
       ∧ ∀ (env2 : Env) (ctx2 : Context) (uid2 : Option String),
           (∃ t2, get_slack_client_from_context env2 ctx2 false uid2 = .client t2)
           ∨ get_slack_client_from_context env2 ctx2 false uid2
               = .credentialError userErrMsg) :=
  ⟨by decide, by rfl, by rfl,
   resolve_service_error_nonfatal_amended svcDown (.error .eofError) none none
     ctxUserHeader "u1" .valueError (by decide) (by rfl) (by rfl)⟩

/-- C5: when the service phase yields no token, a class-specific header
present in the request context under either of its two capitalization
variants with a non-empty value is returned unchanged — the arbitrary
value `t` undergoes no prefix or other validation — and when no identity
applies the Token Service and the terminal are never consulted (the
result does not depend on them). -/
theorem resolve_header_stage_ok (svc : String → HttpOutcome)
    (manual : Except PyError String) (bt ut : Option String) (ctx : Context)
    (use_bot : Bool) (user_id : Option String)
    (hs : List (String × String)) (t : String)
    (hctx : ctx.request_context = some hs)
    (hph : phase1 ⟨svc, manual, bt, ut⟩ use_bot user_id = none)
    (hpy : pyOr (hget hs (headerNameLower use_bot)) (hget hs (headerNameCaps use_bot))
        = some t)
    (ht : t ≠ "") :
    get_slack_client_from_context ⟨svc, manual, bt, ut⟩ ctx use_bot user_id
      = .client t
    ∧ ∀ (svc2 : String → HttpOutcome) (manual2 : Except PyError String),
        get_slack_client_from_context ⟨svc, manual, bt, ut⟩ ctx use_bot none
          = get_slack_client_from_context ⟨svc2, manual2, bt, ut⟩ ctx use_bot none := by
  constructor
  · have hh : headerStage ctx use_bot = some t := by
      simp [headerStage, hctx, hpy, ht]
    simp [get_slack_client_from_context, hph, headerEnvStage, hh]
  · intro svc2 manual2
    have h1 : phase1 ⟨svc, manual, bt, ut⟩ use_bot none = none := by
      cases use_bot <;> simp [phase1]
    have h2 : phase1 ⟨svc2, manual2, bt, ut⟩ use_bot none = none := by
      cases use_bot <;> simp [phase1]
    rw [get_slack_client_from_context, get_slack_client_from_context, h1, h2]
    exact headerEnvStage_tokens_only svc svc2 manual manual2 bt ut ctx use_bot

theorem resolve_header_stage_wit :
    ctxScenarioC.request_context = some [("X-Slack-Bot-Token", "xoxb-123")]
    ∧ phase1 envPlain true none = none
    ∧ pyOr (hget [("X-Slack-Bot-Token", "xoxb-123")] (headerNameLower true))
        (hget [("X-Slack-Bot-Token", "xoxb-123")] (headerNameCaps true))
        = some "xoxb-123"
    ∧ ("xoxb-123" : String) ≠ ""
    ∧ get_slack_client_from_context envPlain ctxScenarioC true none
        = .client "xoxb-123" :=
  ⟨by rfl, by rfl, by rfl, by decide,
   (resolve_header_stage_ok svcDown (.error .eofError) none none ctxScenarioC
     true none [("X-Slack-Bot-Token", "xoxb-123")] "xoxb-123"
     (by rfl) (by rfl) (by rfl) (by decide)).1⟩

/-- C6: when neither the service phase, nor the class-specific header,
nor the local fallback configuration yields a token, resolve raises a
CredentialError whose message names all three remediation options for the
requested class — the identity parameter, the class header, and the
class environment variable — and at the handler level this error is
raised (propagated) rather than returned in an envelope. -/
theorem resolve_exhaustion_error (svc : String → HttpOutcome)
    (manual : Except PyError String) (bt ut : Option String) (ctx : Context)
    (use_bot : Bool) (user_id : Option String)
    (hph : phase1 ⟨svc, manual, bt, ut⟩ use_bot user_id = none)
    (hhd : headerStage ctx use_bot = none)
    (henv : optTruthy (if use_bot then bt else ut) = false) :
    get_slack_client_from_context ⟨svc, manual, bt, ut⟩ ctx use_bot user_id
      = .credentialError (exhaustMsg use_bot)
    ∧ strContains (exhaustMsg use_bot) "user_id" = true
    ∧ strContains (exhaustMsg use_bot) (headerNameCaps use_bot) = true
    ∧ strContains (exhaustMsg use_bot) (envVarName use_bot) = true
    ∧ (use_bot = true → ∀ (ch tx : String) (p : SlackOutcome),
        slack_send_message ⟨svc, manual, bt, ut⟩ ctx ch tx user_id p
          = .raisedCredential botErrMsg) := by
  have hres : get_slack_client_from_context ⟨svc, manual, bt, ut⟩ ctx use_bot user_id
      = .credentialError (exhaustMsg use_bot) := by
    cases use_bot with
    | true =>
      simp at henv
      simp [get_slack_client_from_context, hph, headerEnvStage, hhd, envStage,
        henv, exhaustMsg]
    | false =>
      simp at henv
      simp [get_slack_client_from_context, hph, headerEnvStage, hhd, envStage,
        henv, exhaustMsg]
  refine ⟨hres, ?_, ?_, ?_, ?_⟩
  · cases use_bot <;> decide
  · cases use_bot <;> decide
  · cases use_bot <;> decide
  · intro hub ch tx p
    subst hub
    simp [exhaustMsg] at hres
    simp [slack_send_message, hres, botErrMsg]

theorem resolve_exhaustion_wit :
    phase1 envPlain true none = none
    ∧ headerStage ⟨none⟩ true = none
    ∧ optTruthy (if true then none else none) = false
    ∧ (get_slack_client_from_context envPlain ⟨none⟩ true none
         = .credentialError (exhaustMsg true)
       ∧ strContains (exhaustMsg true) "user_id" = true
       ∧ strContains (exhaustMsg true) (headerNameCaps true) = true
       ∧ strContains (exhaustMsg true) (envVarName true) = true
       ∧ (true = true → ∀ (ch tx : String) (p : SlackOutcome),
           slack_send_message envPlain ⟨none⟩ ch tx none p
             = .raisedCredential botErrMsg)) :=
  ⟨by rfl, by rfl, by rfl,
   resolve_exhaustion_error svcDown (.error .eofError) none none ⟨none⟩
     true none (by rfl) (by rfl) (by rfl)⟩

/-- C7 (amended): once a credential is resolved, a SlackApiError from the
platform call yields the in-band failure envelope, and a success response
carrying the expected fields yields the success envelope; a
credential-phase failure is raised; but a platform success response
missing an expected field (here, one lacking the ts field) raises an
uncaught exception past the handler, so not every platform response is
converted to an envelope. -/
theorem handler_envelope_amended (env : Env) (ctx : Context)
    (ch tx : String) (user_id : Option String) (e : String)
    (resp ts : JValue)
    (hts : jIndex resp "ts" = .ok ts) :
    (∀ tok, get_slack_client_from_context env ctx true user_id = .client tok →
      slack_send_message env ctx ch tx user_id (.apiError e)
          = .envelope (mkFail e)
      ∧ slack_send_message env ctx ch tx user_id (.success resp)
          = .envelope (.obj [("ok", .bool true), ("message_ts", ts)])
      ∧ slack_send_message env ctx ch tx user_id (.success (.obj []))
          = .uncaught .keyError
      ∧ slack_list_users env ctx user_id (.apiError e) = .envelope (mkFail e))
    ∧ (∀ m, get_slack_client_from_context env ctx true user_id
          = .credentialError m →
        slack_send_message env ctx ch tx user_id (.apiError e)
          = .raisedCredential m) := by
  constructor
  · intro tok hres
    refine ⟨?_, ?_, ?_, ?_⟩
    · simp [slack_send_message, hres]
    · simp [slack_send_message, hres, hts]
    · simp [slack_send_message, hres, jIndex, lookupField]
    · simp [slack_list_users, hres]
  · intro m hres
    simp [slack_send_message, hres]

theorem handler_envelope_cex :
    isStructuredOutcome
      (slack_send_message envBotFallback ⟨none⟩ "C123" "hi" none
        (.success (.obj []))) = false := by rfl

theorem handler_envelope_wit :
    jIndex (JValue.obj [("ts", .str "111.22")]) "ts" = .ok (.str "111.22")
    ∧ get_slack_client_from_context envBotFallback ⟨none⟩ true none
        = .client "xoxb-env"
    ∧ slack_send_message envBotFallback ⟨none⟩ "C123" "hi" none
        (.apiError "channel_not_found") = .envelope (mkFail "channel_not_found") :=
  ⟨by rfl, by rfl,
   ((handler_envelope_amended envBotFallback ⟨none⟩ "C123" "hi" none
      "channel_not_found" (.obj [("ts", .str "111.22")]) (.str "111.22")
      (by rfl)).1 "xoxb-env" (by rfl)).1⟩

theorem msgMatches_wf (kw : String) (m : JValue)
    (h : wellFormedMsg m = true) :
    msgMatches kw m = .ok (msgPred kw m) := by
  cases m with
  | obj fs =>
    cases hl : lookupField fs "text" with
    | none =>
      simp [msgMatches, jGetD, hl, msgText, msgPred, pure, Except.pure,
        bind, Except.bind]
    | some v =>
      simp only [wellFormedMsg, hl] at h
      cases v <;>
        simp_all [msgMatches, jGetD, hl, msgText, msgPred, pure, Except.pure,
          bind, Except.bind]
  | arr l => simp [wellFormedMsg] at h
  | str s => simp [wellFormedMsg] at h
  | num n => simp [wellFormedMsg] at h
  | bool b => simp [wellFormedMsg] at h
  | null => simp [wellFormedMsg] at h

theorem filterMessages_wf (kw : String) (l : List JValue)
    (h : l.all wellFormedMsg = true) :
    filterMessages kw l = .ok (l.filter (msgPred kw)) := by
  induction l with
  | nil => simp [filterMessages]
  | cons m ms ih =>
    simp only [List.all_cons, Bool.and_eq_true] at h
    have h1 := msgMatches_wf kw m h.1
    have h2 := ih h.2
    simp only [filterMessages, h1, h2, Except.bind, List.filter_cons, bind]
    cases hp : msgPred kw m <;> simp [hp, pure, Except.pure]

/-- C8: with a resolved credential and a fetched message list whose
members are well-formed (dicts whose text field, when present, is a
string), keyword search returns exactly the filter of the fetched
messages by case-insensitive substring containment of the keyword in
their text (absent text reading as empty); the result is a sublist of
the fetched messages (original order preserved) and contains a message
iff it was fetched and matches. -/
theorem search_filter_spec (env : Env) (ctx : Context) (ch kw : String)
    (limit : Nat) (user_id : Option String) (tok : String)
    (msgs : List JValue)
    (hres : get_slack_client_from_context env ctx false user_id = .client tok)
    (hwf : msgs.all wellFormedMsg = true) :
    slack_search_messages env ctx ch kw limit user_id
        (.success (.obj [("messages", .arr msgs)]))
      = .envelope (.obj [("ok", .bool true),
          ("matches", .arr (msgs.filter (msgPred kw)))])
    ∧ (msgs.filter (msgPred kw)).Sublist msgs
    ∧ ∀ m, m ∈ msgs.filter (msgPred kw) ↔ m ∈ msgs ∧ msgPred kw m = true := by
  refine ⟨?_, List.filter_sublist _, fun m => List.mem_filter⟩
  have h1 := filterMessages_wf kw msgs hwf
  simp [slack_search_messages, hres, jIndex, lookupField, h1, Except.bind, bind]

theorem search_filter_wit :
    get_slack_client_from_context envUserFallback ⟨none⟩ false none
      = .client "xoxu-env"
    ∧ msgsW.all wellFormedMsg = true
    ∧ msgsW.filter (msgPred "hello")
        = [.obj [("text", .str "Hello World"), ("user", .str "u1")]]
    ∧ slack_search_messages envUserFallback ⟨none⟩ "C123" "hello" 50 none
        (.success (.obj [("messages", .arr msgsW)]))
      = .envelope (.obj [("ok", .bool true),
          ("matches", .arr (msgsW.filter (msgPred "hello")))]) :=
  ⟨by rfl, by rfl, by rfl,
   (search_filter_spec envUserFallback ⟨none⟩ "C123" "hello" 50 none
     "xoxu-env" msgsW (by rfl) (by rfl)).1⟩

/-- C9: the token-service client raises its ServiceError (modelled as the
ValueError wrapper) on network failure, timeout, non-2xx status, or
unparseable body; on a 2xx response it returns the first element of a
non-empty list body, a dict body directly, and an empty list body as-is
(an unusable record); downstream, a record lacking any token field and an
empty-list record both make USER-class resolution continue past the
service phase to the header and fallback sources instead of crashing. -/
theorem token_service_contract :
    get_token_from_service .networkError = .error .valueError
    ∧ get_token_from_service .timeout = .error .valueError
    ∧ (∀ (st : Nat) (body : Option JValue), st < 200 ∨ 299 < st →
        get_token_from_service (.response st body) = .error .valueError)
    ∧ (∀ st : Nat, 200 ≤ st → st ≤ 299 →
        get_token_from_service (.response st none) = .error .valueError)
    ∧ (∀ (st : Nat) (x : JValue) (xs : List JValue), 200 ≤ st → st ≤ 299 →
        get_token_from_service (.response st (some (.arr (x :: xs)))) = .ok x)
    ∧ (∀ (st : Nat) (fs : List (String × JValue)), 200 ≤ st → st ≤ 299 →
        get_token_from_service (.response st (some (.obj fs))) = .ok (.obj fs))
    ∧ (∀ st : Nat, 200 ≤ st → st ≤ 299 →
        get_token_from_service (.response st (some (.arr []))) = .ok (.arr []))
    ∧ (∀ (svc : String → HttpOutcome) (manual : Except PyError String)
        (bt ut : Option String) (ctx : Context) (uid : String), uid ≠ "" →
        get_token_from_service (svc uid) = .ok (.obj []) →
        get_slack_client_from_context ⟨svc, manual, bt, ut⟩ ctx false (some uid)
          = headerEnvStage ⟨svc, manual, bt, ut⟩ ctx false)
    ∧ (∀ (svc : String → HttpOutcome) (pe : PyError)
        (bt ut : Option String) (ctx : Context) (uid : String), uid ≠ "" →
        get_token_from_service (svc uid) = .ok (.arr []) →
        get_slack_client_from_context ⟨svc, .error pe, bt, ut⟩ ctx false (some uid)
          = headerEnvStage ⟨svc, .error pe, bt, ut⟩ ctx false) := by
  refine ⟨by rfl, by rfl, ?_, ?_, ?_, ?_, ?_, ?_, ?_⟩
  · intro st body h
    simp only [get_token_from_service]
    rw [if_neg (by omega)]
  · intro st h1 h2
    simp only [get_token_from_service]
    rw [if_pos ⟨h1, h2⟩]
  · intro st x xs h1 h2
    simp only [get_token_from_service]
    rw [if_pos ⟨h1, h2⟩]
  · intro st fs h1 h2
    simp only [get_token_from_service]
    rw [if_pos ⟨h1, h2⟩]
  · intro st h1 h2
    simp only [get_token_from_service]
    rw [if_pos ⟨h1, h2⟩]
  · intro svc manual bt ut ctx uid hu hfetch
    have h1 : fetchCheck ⟨svc, manual, bt, ut⟩ uid = .ok none := by
      simp [fetchCheck, hfetch, checkUserToken, jGet, lookupField]
    have h2 : phase1 ⟨svc, manual, bt, ut⟩ false (some uid) = none := by
      simp [phase1, hu, h1]
    simp [get_slack_client_from_context, h2]
  · intro svc pe bt ut ctx uid hu hfetch
    have h1 : fetchCheck ⟨svc, .error pe, bt, ut⟩ uid = .error .attributeError := by
      simp [fetchCheck, hfetch, checkUserToken, jGet]
    have h2 : phase1 ⟨svc, .error pe, bt, ut⟩ false (some uid) = none := by
      simp [phase1, hu, h1, manualStage]
    simp [get_slack_client_from_context, h2]

theorem token_service_contract_wit :
    (503 < 200 ∨ 299 < 503)
    ∧ get_token_from_service (.response 503 (some (.obj []))) = .error .valueError
    ∧ (200 ≤ 200 ∧ 200 ≤ 299)
    ∧ get_token_from_service
        (.response 200 (some (.arr [.obj [("access_token", .str "a")], .null])))
        = .ok (.obj [("access_token", .str "a")]) :=
  ⟨by decide,
   token_service_contract.2.2.1 503 (some (.obj [])) (by decide),
   by decide,
   token_service_contract.2.2.2.2.1 200 (.obj [("access_token", .str "a")])
     [.null] (by decide) (by decide)⟩

/-- C10: with a resolved BOT credential and a truthy invite_user_id, when
channel creation succeeds (the create effect is performed and reported
successful) but the subsequent invite raises a SlackApiError, the handler
returns only the failure envelope with the invite error text — the
already-built success envelope is discarded, and the returned envelope
carries ok=false, the invite error, and no channel field reporting the
partial success. -/
theorem create_channel_invite_failure (env : Env) (ctx : Context)
    (name : String) (ispriv : Bool) (iu : String) (user_id : Option String)
    (tok e : String) (resp channel cid cname cpriv ccreated : JValue)
    (hres : get_slack_client_from_context env ctx true user_id = .client tok)
    (hiu : iu ≠ "")
    (hch : jIndex resp "channel" = .ok channel)
    (hid : jIndex channel "id" = .ok cid)
    (hnm : jIndex channel "name" = .ok cname)
    (hpv : jGetD channel "is_private" (.bool false) = .ok cpriv)
    (hcr : jGetD channel "created" (.num 0) = .ok ccreated) :
    slack_create_channel env ctx name ispriv (some iu) user_id
        (.success resp) (.apiError e)
      = ([.create name ispriv true, .invite cid iu false], .envelope (mkFail e))
    ∧ fieldOf (mkFail e) "ok" = some (.bool false)
    ∧ fieldOf (mkFail e) "error" = some (.str e)
    ∧ fieldOf (mkFail e) "channel" = none := by
  refine ⟨?_, by simp [fieldOf, mkFail, lookupField],
    by simp [fieldOf, mkFail, lookupField], by simp [fieldOf, mkFail, lookupField]⟩
  simp [slack_create_channel, hres, hch, hid, hnm, hpv, hcr, hiu,
    Except.bind, bind, pure, Except.pure]

theorem create_channel_invite_failure_wit :
    get_slack_client_from_context envBotFallback ⟨none⟩ true none
      = .client "xoxb-env"
    ∧ ("U777" : String) ≠ ""
    ∧ jIndex (JValue.obj [("channel", .obj [("id", .str "C9"), ("name", .str "newchan")])])
        "channel" = .ok (.obj [("id", .str "C9"), ("name", .str "newchan")])
    ∧ slack_create_channel envBotFallback ⟨none⟩ "newchan" false (some "U777")
        none
        (.success (.obj [("channel", .obj [("id", .str "C9"), ("name", .str "newchan")])]))
        (.apiError "cant_invite")
      = ([.create "newchan" false true, .invite (.str "C9") "U777" false],
         .envelope (mkFail "cant_invite")) :=
  ⟨by rfl, by decide, by rfl,
   (create_channel_invite_failure envBotFallback ⟨none⟩ "newchan" false "U777"
     none "xoxb-env" "cant_invite"
     (.obj [("channel", .obj [("id", .str "C9"), ("name", .str "newchan")])])
     (.obj [("id", .str "C9"), ("name", .str "newchan")])
     (.str "C9") (.str "newchan") (.bool false) (.num 0)
     (by rfl) (by decide) (by rfl) (by rfl) (by rfl) (by rfl) (by rfl)).1⟩

end SlackMCP
